import Mathlib

/-!
Verification of the off-chain data-custody, risk-scoring, consent-gating and
identity-verification pipeline of the identity-blockchain repository.

The Python modules under src/off-chain are shallowly embedded:
  - data_storage/models.py        : Asset, Liability, FinancialData and their
                                    to_dict / from_dict serializers;
  - data_storage/storage.py       : FinancialDataStorage (save, load,
                                    calculate_file_hash, add/remove of assets
                                    and liabilities);
  - data_storage/user_directory.py: UserDirectory (username to address map);
  - data_services/financial_data_service.py : FinancialDataService
                                    (compute_summary, risk score, tier and
                                    income-band mapping);
  - data_services/consent_data_service.py   : ConsentDataService
                                    (consent check and gated data access);
  - data_services/identity_verification.py  : IdentityVerification (OTP);
  - data_services/data_sharing_client.py    : save_financial_profile and
                                    update_on_chain_profile orchestration.

Numbers are embedded as rationals (Python floats on the inputs concerned are
exact decimal fractions, and all arithmetic here stays well inside exactness).
Python exceptions are embedded as values of an error type carried by Except.
External library functions (json.dumps / json.loads, hashlib.sha256, the
Fernet cipher, the current time, the random OTP generator, and every remote
ledger call) are modelled as explicit parameters: the repository treats each
of them as an opaque function, and the claims quantify over their behaviour.
-/

namespace IdBlock

/-- Python exceptions raised by the embedded code paths. -/
inductive PyErr where
  | attributeError (name : String)
  | typeError (msg : String)
  | keyError (key : String)
  | valueError (msg : String)
  | permissionError (msg : String)
  | externalError (msg : String)
deriving DecidableEq

/-- JSON-like Python values (the shapes produced by the to_dict methods). -/
inductive JVal where
  | s (v : String)
  | q (v : ℚ)
  | b (v : Bool)
  | arr (xs : List JVal)
  | obj (kvs : List (String × JVal))

namespace JVal

/-- Boolean equality on JSON values, by well-founded recursion on size. -/
def beqJ : JVal → JVal → Bool
  | .s x, .s y => x == y
  | .q x, .q y => x == y
  | .b x, .b y => x == y
  | .arr [], .arr [] => true
  | .arr (x :: xs), .arr (y :: ys) => beqJ x y && beqJ (.arr xs) (.arr ys)
  | .obj [], .obj [] => true
  | .obj ((k, v) :: xs), .obj ((k2, v2) :: ys) =>
      k == k2 && beqJ v v2 && beqJ (.obj xs) (.obj ys)
  | _, _ => false

theorem beqJ_iff : ∀ a c : JVal, beqJ a c = true ↔ a = c := by
  intro a c
  induction a, c using beqJ.induct with
  | case1 x y => simp [beqJ]
  | case2 x y => simp [beqJ]
  | case3 x y => simp [beqJ]
  | case4 => simp [beqJ]
  | case5 x xs y ys ih1 ih2 => simp [beqJ, ih1] at ih2 ⊢; simp [ih2]
  | case6 => simp [beqJ]
  | case7 k v xs k2 v2 ys ih1 ih2 => simp [beqJ, ih1] at ih2 ⊢; simp [ih2]
  | case8 x x1 h1 h2 h3 h4 h5 h6 h7 =>
    rw [beqJ.eq_def]
    split
    · exact (h1 _ _ rfl rfl).elim
    · exact (h2 _ _ rfl rfl).elim
    · exact (h3 _ _ rfl rfl).elim
    · exact (h4 rfl rfl).elim
    · exact (h5 _ _ _ _ rfl rfl).elim
    · exact (h6 rfl rfl).elim
    · exact (h7 _ _ _ _ _ _ rfl rfl).elim
    · next g1 g2 g3 g4 g5 g6 g7 =>
      simp only [Bool.false_eq_true, false_iff]
      intro h
      subst h
      cases x with
      | s v => exact g1 v v rfl rfl
      | q v => exact g2 v v rfl rfl
      | b v => exact g3 v v rfl rfl
      | arr xs =>
        cases xs with
        | nil => exact g4 rfl rfl
        | cons hd tl => exact g5 hd tl hd tl rfl rfl
      | obj kvs =>
        cases kvs with
        | nil => exact g6 rfl rfl
        | cons hd tl => exact g7 hd.1 hd.2 tl hd.1 hd.2 tl rfl rfl

instance : DecidableEq JVal := fun a c => decidable_of_iff _ (beqJ_iff a c)

/-- Python truthiness of a value, used by the metadata guards in to_dict. -/
def truthy : JVal → Bool
  | .s v => v != ""
  | .q v => v != 0
  | .b v => v
  | .arr xs => !xs.isEmpty
  | .obj kvs => !kvs.isEmpty

/-- Dictionary subscript data[key]: raises KeyError when the key is absent. -/
def getItem (v : JVal) (key : String) : Except PyErr JVal :=
  match v with
  | .obj kvs =>
    match kvs.lookup key with
    | some w => .ok w
    | none => .error (.keyError key)
  | _ => .error (.typeError "not a dict")

/-- Python dict.get(key): none when the key is absent. -/
def getOpt (v : JVal) (key : String) : Option JVal :=
  match v with
  | .obj kvs => kvs.lookup key
  | _ => none

/-- Python dict.get(key, default). -/
def getD (v : JVal) (key : String) (dflt : JVal) : JVal :=
  match v.getOpt key with
  | some w => w
  | none => dflt

/-- Reads a JSON value as a number; the embedding types the numeric fields. -/
def asNum : JVal → Except PyErr ℚ
  | .q v => .ok v
  | _ => .error (.typeError "expected a number")

/-- Reads a JSON value as a string. -/
def asStr : JVal → Except PyErr String
  | .s v => .ok v
  | _ => .error (.typeError "expected a string")

/-- Reads a JSON value as a boolean. -/
def asBool : JVal → Except PyErr Bool
  | .b v => .ok v
  | _ => .error (.typeError "expected a bool")

end JVal

/-- Python str.lower, character by character (reduction-friendly form). -/
def pyLower (s : String) : String := ⟨s.data.map Char.toLower⟩

/-- Python str.startswith at the fixed prefix 0x used throughout the source
(reduction-friendly form of String.startsWith). -/
def startsWith0x (s : String) : Bool :=
  match s.data with
  | '0' :: 'x' :: _ => true
  | _ => false

/-! ## data_storage/models.py -/

/-- Member values of the AssetType enumeration. -/
def assetTypeValues : List String :=
  ["savings", "checking", "investment", "property", "vehicle", "other"]

/-- Member values of the LiabilityType enumeration. -/
def liabilityTypeValues : List String :=
  ["credit_card", "mortgage", "auto_loan", "personal_loan", "student_loan", "other"]

/-- AssetType(value): raises ValueError when value is not a member. -/
def AssetType.ofValue (v : String) : Except PyErr String :=
  if v ∈ assetTypeValues then .ok v else .error (.valueError "not a valid AssetType")

/-- LiabilityType(value): raises ValueError when value is not a member. -/
def LiabilityType.ofValue (v : String) : Except PyErr String :=
  if v ∈ liabilityTypeValues then .ok v else .error (.valueError "not a valid LiabilityType")

/-- The Asset dataclass of models.py. -/
structure Asset where
  assetID : String
  assetType : String
  value : ℚ
  ownershipPercentage : ℚ
  lastUpdated : String
  metadata : Option JVal
deriving DecidableEq

/-- Asset construction including the range checks of Asset.__post_init__. -/
def Asset.mkChecked (assetID assetType : String) (value ownershipPercentage : ℚ)
    (lastUpdated : String) (metadata : Option JVal) : Except PyErr Asset :=
  if ¬(0 ≤ ownershipPercentage ∧ ownershipPercentage ≤ 100) then
    .error (.valueError "ownershipPercentage must be between 0 and 100")
  else if value < 0 then
    .error (.valueError "value must be non-negative")
  else
    .ok ⟨assetID, assetType, value, ownershipPercentage, lastUpdated, metadata⟩

/-- Asset.to_dict: the metadata entry is present only when metadata is truthy. -/
def Asset.to_dict (a : Asset) : JVal :=
  .obj ([("assetID", .s a.assetID),
         ("assetType", .s a.assetType),
         ("value", .q a.value),
         ("ownershipPercentage", .q a.ownershipPercentage),
         ("lastUpdated", .s a.lastUpdated)] ++
        (match a.metadata with
         | some m => if m.truthy then [("metadata", m)] else []
         | none => []))

/-- Asset.from_dict: now supplies the datetime.utcnow default for lastUpdated. -/
def Asset.from_dict (now : String) (data : JVal) : Except PyErr Asset := do
  let idv ← data.getItem "assetID"
  let assetID ← idv.asStr
  let tv ← data.getItem "assetType"
  let tvs ← tv.asStr
  let assetType ← AssetType.ofValue tvs
  let vv ← data.getItem "value"
  let value ← vv.asNum
  let pct ← (data.getD "ownershipPercentage" (.q 100)).asNum
  let lu ← (data.getD "lastUpdated" (.s now)).asStr
  let md := data.getOpt "metadata"
  Asset.mkChecked assetID assetType value pct lu md

/-- The Liability dataclass of models.py.  Its declared fields are exactly
liabilityID, liabilityType, amount, interestRate, monthlyPayment, lastUpdated
and metadata: the dataclass declares no dueDate and no isOverdue field, even
though its own to_dict and from_dict refer to both. -/
structure Liability where
  liabilityID : String
  liabilityType : String
  amount : ℚ
  interestRate : ℚ
  monthlyPayment : ℚ
  lastUpdated : String
  metadata : Option JVal
deriving DecidableEq

/-- Liability construction including the checks of Liability.__post_init__. -/
def Liability.mkChecked (liabilityID liabilityType : String)
    (amount interestRate monthlyPayment : ℚ) (lastUpdated : String)
    (metadata : Option JVal) : Except PyErr Liability :=
  if ¬(0 ≤ interestRate ∧ interestRate ≤ 100) then
    .error (.valueError "interestRate must be between 0 and 100")
  else if amount < 0 then
    .error (.valueError "amount must be non-negative")
  else if monthlyPayment < 0 then
    .error (.valueError "monthlyPayment must be non-negative")
  else
    .ok ⟨liabilityID, liabilityType, amount, interestRate, monthlyPayment,
         lastUpdated, metadata⟩

/-- Liability.to_dict builds a dict literal whose sixth entry evaluates
self.dueDate; the dataclass defines no such attribute, so in the source this
method always raises AttributeError before producing a dictionary. -/
def Liability.to_dict (_l : Liability) : Except PyErr JVal :=
  .error (.attributeError "dueDate")

/-- Liability.from_dict evaluates every argument expression (so a missing
dueDate key raises KeyError first) and then calls the dataclass constructor
with the keyword arguments dueDate and isOverdue, which the dataclass does not
accept: the constructor call raises TypeError. -/
def Liability.from_dict (now : String) (data : JVal) : Except PyErr Liability := do
  let _ ← data.getItem "liabilityID"
  let tv ← data.getItem "liabilityType"
  let tvs ← tv.asStr
  let _ ← LiabilityType.ofValue tvs
  let _ ← data.getItem "amount"
  let _ ← data.getItem "interestRate"
  let _ ← data.getItem "monthlyPayment"
  let _ ← data.getItem "dueDate"
  let _ := data.getD "isOverdue" (.b false)
  let _ := data.getD "lastUpdated" (.s now)
  let _ := data.getOpt "metadata"
  .error (.typeError "unexpected keyword argument dueDate")

/-- The FinancialData dataclass of models.py. -/
structure FinancialData where
  userDID : String
  assets : List Asset
  liabilities : List Liability
  lastUpdated : String
  metadata : Option JVal
deriving DecidableEq

/-- FinancialData construction including the address check of __post_init__. -/
def FinancialData.mkChecked (userDID : String) (assets : List Asset)
    (liabilities : List Liability) (lastUpdated : String) (metadata : Option JVal) :
    Except PyErr FinancialData :=
  if ¬(startsWith0x userDID) ∨ userDID.length ≠ 42 then
    .error (.valueError "userDID must be a valid Ethereum address (0x...)")
  else
    .ok ⟨userDID, assets, liabilities, lastUpdated, metadata⟩

/-- FinancialData.to_dict: serializes assets, then liabilities (each via
Liability.to_dict, which raises on the first liability), then the rest. -/
def FinancialData.to_dict (fd : FinancialData) : Except PyErr JVal := do
  let liabDicts ← fd.liabilities.mapM Liability.to_dict
  .ok (.obj ([("userDID", .s fd.userDID),
              ("assets", .arr (fd.assets.map Asset.to_dict)),
              ("liabilities", .arr liabDicts),
              ("lastUpdated", .s fd.lastUpdated)] ++
             (match fd.metadata with
              | some m => if m.truthy then [("metadata", m)] else []
              | none => [])))

/-- FinancialData.from_dict. -/
def FinancialData.from_dict (now : String) (data : JVal) : Except PyErr FinancialData := do
  let dv ← data.getItem "userDID"
  let userDID ← dv.asStr
  let assetsJ := data.getD "assets" (.arr [])
  let assets ← match assetsJ with
    | .arr xs => xs.mapM (Asset.from_dict now)
    | _ => .error (.typeError "expected a list")
  let liabsJ := data.getD "liabilities" (.arr [])
  let liabilities ← match liabsJ with
    | .arr xs => xs.mapM (Liability.from_dict now)
    | _ => .error (.typeError "expected a list")
  let lu ← (data.getD "lastUpdated" (.s now)).asStr
  let md := data.getOpt "metadata"
  FinancialData.mkChecked userDID assets liabilities lu md

/-! ## data_services/financial_data_service.py -/

/-- The Summary dataclass of financial_data_service.py. -/
structure Summary where
  net_worth : ℚ
  total_assets : ℚ
  total_liabilities : ℚ
  dti : Option ℚ
  utilization : Option ℚ
  risk_score : ℚ
  credit_tier : String
  income_band : String
deriving DecidableEq

/-- Default tier threshold table of FinancialDataService.__init__
(descending thresholds paired with tier names). -/
def tier_thresholds : List (ℚ × String) :=
  [(800, "HighPlatinum"), (740, "MidPlatinum"), (700, "LowPlatinum"),
   (660, "HighGold"), (620, "MidGold"), (580, "LowGold"),
   (540, "HighSilver"), (500, "MidSilver"), (460, "LowSilver"),
   (420, "HighBronze"), (380, "MidBronze"), (340, "LowBronze"),
   (0, "None")]

/-- Default income band table of FinancialDataService.__init__
(ascending ceilings paired with band names). -/
def income_bands : List (ℚ × String) :=
  [(25000, "upto25k"), (50000, "upto50k"), (75000, "upto75k"),
   (100000, "upto100k"), (150000, "upto150k"), (200000, "upto200k"),
   (250000, "upto250k"), (300000, "upto300k"), (350000, "upto350k"),
   (400000, "upto400k"), (450000, "upto450k"), (500000, "upto500k")]

/-- FinancialDataService._risk_score. -/
def riskScore (net_worth : ℚ) (dti utilization : Option ℚ) : ℚ :=
  let score : ℚ := 500
  let score := score + min (max (net_worth / 10000) (-200)) 300
  let score := match dti with
    | some d => score - min (max (d * 200) 0) 250
    | none => score
  let score := match utilization with
    | some u => score - min (max (u * 400) 0) 250
    | none => score
  max 0 (min score 1000)

/-- FinancialDataService._map_tier: walks the descending table and returns the
first tier whose threshold the score reaches. -/
def mapTier (table : List (ℚ × String)) (score : ℚ) : String :=
  match table with
  | [] => "None"
  | (threshold, tier) :: rest =>
    if score ≥ threshold then tier else mapTier rest score

/-- FinancialDataService._map_income_band. -/
def mapIncomeBand (table : List (ℚ × String)) (annual_income : Option ℚ) : String :=
  match annual_income with
  | none => "None"
  | some inc =>
    let rec go : List (ℚ × String) → String
      | [] => "moreThan500k"
      | (max_income, band) :: rest => if inc ≤ max_income then band else go rest
    go table

/-- FinancialDataService.compute_summary.  The Python guards
"annual_income and annual_income > 0" combine truthiness with the comparison;
on numbers they are equivalent to the value being present and positive. -/
def compute_summary (fd : FinancialData) (annual_income total_credit_limit : Option ℚ) :
    Summary :=
  let total_assets := (fd.assets.map (fun a => a.value * (a.ownershipPercentage / 100))).sum
  let total_liabilities := (fd.liabilities.map (fun l => l.amount)).sum
  let net_worth := total_assets - total_liabilities
  let dti : Option ℚ := match annual_income with
    | some inc =>
      if inc ≠ 0 ∧ inc > 0 then
        let monthly_income := inc / 12
        let monthly_liabilities := (fd.liabilities.map (fun l => l.monthlyPayment)).sum
        some (monthly_liabilities / monthly_income)
      else none
    | none => none
  let utilization : Option ℚ := match total_credit_limit with
    | some lim =>
      if lim ≠ 0 ∧ lim > 0 then
        let revolving := (fd.liabilities.map (fun l => l.amount)).sum
        some (revolving / lim)
      else none
    | none => none
  let risk_score := riskScore net_worth dti utilization
  let credit_tier := mapTier tier_thresholds risk_score
  let income_band := mapIncomeBand income_bands annual_income
  { net_worth := net_worth
    total_assets := total_assets
    total_liabilities := total_liabilities
    dti := dti
    utilization := utilization
    risk_score := risk_score
    credit_tier := credit_tier
    income_band := income_band }


/-! ## Spec-side definitions for the risk-scoring claims -/

/-- Clamp x into the interval from lo to hi, as written in the specification. -/
def clamp (x lo hi : ℚ) : ℚ := min (max x lo) hi

/-- Risk-score formula as the specification states it: absent dti or
utilization contributes 0 to the sum. -/
def specRiskScore (netWorth : ℚ) (dti utilization : Option ℚ) : ℚ :=
  clamp (500 + clamp (netWorth / 10000) (-200) 300
    - (match dti with | some d => clamp (d * 200) 0 250 | none => 0)
    - (match utilization with | some u => clamp (u * 400) 0 250 | none => 0)) 0 1000

/-- The largest threshold of the 13-entry tier table that the score reaches
(the specification description of tier selection). -/
def specLargestThreshold (score : ℚ) : ℚ :=
  ((tier_thresholds.map Prod.fst).filter (fun t => decide (t ≤ score))).foldr max 0

/-- The tier name paired with a given threshold in the tier table. -/
def tierLookup : List (ℚ × String) → ℚ → String
  | [], _ => "None"
  | (t0, name) :: rest, t => if t = t0 then name else tierLookup rest t

/-- Tier of a threshold in the default table. -/
def tierOfThreshold (t : ℚ) : String := tierLookup tier_thresholds t

/-- The outer clamp of the risk score: the code writes max 0 (min score 1000),
the specification writes clamp score 0 1000; the two agree. -/
theorem max_zero_min_eq_clamp (x : ℚ) : max 0 (min x 1000) = clamp x 0 1000 := by
  simp only [clamp, min_def, max_def]
  split_ifs <;> linarith

/-- The code risk score equals the specification formula pointwise. -/
theorem riskScore_eq_spec (nw : ℚ) (dti util : Option ℚ) :
    riskScore nw dti util = specRiskScore nw dti util := by
  cases dti <;> cases util <;>
    simp only [riskScore, specRiskScore, sub_zero] <;>
    exact max_zero_min_eq_clamp _

/-- The 13-branch interval analysis behind the tier-mapping claim. -/
theorem mapTier_eq_largest (s : ℚ) (h0 : 0 ≤ s) :
    mapTier tier_thresholds s = tierOfThreshold (specLargestThreshold s) := by
  rcases le_or_lt 800 s with h800 | h800
  · norm_num [mapTier, tier_thresholds, specLargestThreshold, tierOfThreshold, tierLookup,
      h800, (by linarith : (740:ℚ) ≤ s), (by linarith : (700:ℚ) ≤ s), (by linarith : (660:ℚ) ≤ s), (by linarith : (620:ℚ) ≤ s), (by linarith : (580:ℚ) ≤ s), (by linarith : (540:ℚ) ≤ s), (by linarith : (500:ℚ) ≤ s), (by linarith : (460:ℚ) ≤ s), (by linarith : (420:ℚ) ≤ s), (by linarith : (380:ℚ) ≤ s), (by linarith : (340:ℚ) ≤ s), h0]
  rcases le_or_lt 740 s with h740 | h740
  · norm_num [mapTier, tier_thresholds, specLargestThreshold, tierOfThreshold, tierLookup,
      h800.not_le, h740, (by linarith : (700:ℚ) ≤ s), (by linarith : (660:ℚ) ≤ s), (by linarith : (620:ℚ) ≤ s), (by linarith : (580:ℚ) ≤ s), (by linarith : (540:ℚ) ≤ s), (by linarith : (500:ℚ) ≤ s), (by linarith : (460:ℚ) ≤ s), (by linarith : (420:ℚ) ≤ s), (by linarith : (380:ℚ) ≤ s), (by linarith : (340:ℚ) ≤ s), h0]
  rcases le_or_lt 700 s with h700 | h700
  · norm_num [mapTier, tier_thresholds, specLargestThreshold, tierOfThreshold, tierLookup,
      h800.not_le, h740.not_le, h700, (by linarith : (660:ℚ) ≤ s), (by linarith : (620:ℚ) ≤ s), (by linarith : (580:ℚ) ≤ s), (by linarith : (540:ℚ) ≤ s), (by linarith : (500:ℚ) ≤ s), (by linarith : (460:ℚ) ≤ s), (by linarith : (420:ℚ) ≤ s), (by linarith : (380:ℚ) ≤ s), (by linarith : (340:ℚ) ≤ s), h0]
  rcases le_or_lt 660 s with h660 | h660
  · norm_num [mapTier, tier_thresholds, specLargestThreshold, tierOfThreshold, tierLookup,
      h800.not_le, h740.not_le, h700.not_le, h660, (by linarith : (620:ℚ) ≤ s), (by linarith : (580:ℚ) ≤ s), (by linarith : (540:ℚ) ≤ s), (by linarith : (500:ℚ) ≤ s), (by linarith : (460:ℚ) ≤ s), (by linarith : (420:ℚ) ≤ s), (by linarith : (380:ℚ) ≤ s), (by linarith : (340:ℚ) ≤ s), h0]
  rcases le_or_lt 620 s with h620 | h620
  · norm_num [mapTier, tier_thresholds, specLargestThreshold, tierOfThreshold, tierLookup,
      h800.not_le, h740.not_le, h700.not_le, h660.not_le, h620, (by linarith : (580:ℚ) ≤ s), (by linarith : (540:ℚ) ≤ s), (by linarith : (500:ℚ) ≤ s), (by linarith : (460:ℚ) ≤ s), (by linarith : (420:ℚ) ≤ s), (by linarith : (380:ℚ) ≤ s), (by linarith : (340:ℚ) ≤ s), h0]
  rcases le_or_lt 580 s with h580 | h580
  · norm_num [mapTier, tier_thresholds, specLargestThreshold, tierOfThreshold, tierLookup,
      h800.not_le, h740.not_le, h700.not_le, h660.not_le, h620.not_le, h580, (by linarith : (540:ℚ) ≤ s), (by linarith : (500:ℚ) ≤ s), (by linarith : (460:ℚ) ≤ s), (by linarith : (420:ℚ) ≤ s), (by linarith : (380:ℚ) ≤ s), (by linarith : (340:ℚ) ≤ s), h0]
  rcases le_or_lt 540 s with h540 | h540
  · norm_num [mapTier, tier_thresholds, specLargestThreshold, tierOfThreshold, tierLookup,
      h800.not_le, h740.not_le, h700.not_le, h660.not_le, h620.not_le, h580.not_le, h540, (by linarith : (500:ℚ) ≤ s), (by linarith : (460:ℚ) ≤ s), (by linarith : (420:ℚ) ≤ s), (by linarith : (380:ℚ) ≤ s), (by linarith : (340:ℚ) ≤ s), h0]
  rcases le_or_lt 500 s with h500 | h500
  · norm_num [mapTier, tier_thresholds, specLargestThreshold, tierOfThreshold, tierLookup,
      h800.not_le, h740.not_le, h700.not_le, h660.not_le, h620.not_le, h580.not_le, h540.not_le, h500, (by linarith : (460:ℚ) ≤ s), (by linarith : (420:ℚ) ≤ s), (by linarith : (380:ℚ) ≤ s), (by linarith : (340:ℚ) ≤ s), h0]
  rcases le_or_lt 460 s with h460 | h460
  · norm_num [mapTier, tier_thresholds, specLargestThreshold, tierOfThreshold, tierLookup,
      h800.not_le, h740.not_le, h700.not_le, h660.not_le, h620.not_le, h580.not_le, h540.not_le, h500.not_le, h460, (by linarith : (420:ℚ) ≤ s), (by linarith : (380:ℚ) ≤ s), (by linarith : (340:ℚ) ≤ s), h0]
  rcases le_or_lt 420 s with h420 | h420
  · norm_num [mapTier, tier_thresholds, specLargestThreshold, tierOfThreshold, tierLookup,
      h800.not_le, h740.not_le, h700.not_le, h660.not_le, h620.not_le, h580.not_le, h540.not_le, h500.not_le, h460.not_le, h420, (by linarith : (380:ℚ) ≤ s), (by linarith : (340:ℚ) ≤ s), h0]
  rcases le_or_lt 380 s with h380 | h380
  · norm_num [mapTier, tier_thresholds, specLargestThreshold, tierOfThreshold, tierLookup,
      h800.not_le, h740.not_le, h700.not_le, h660.not_le, h620.not_le, h580.not_le, h540.not_le, h500.not_le, h460.not_le, h420.not_le, h380, (by linarith : (340:ℚ) ≤ s), h0]
  rcases le_or_lt 340 s with h340 | h340
  · norm_num [mapTier, tier_thresholds, specLargestThreshold, tierOfThreshold, tierLookup,
      h800.not_le, h740.not_le, h700.not_le, h660.not_le, h620.not_le, h580.not_le, h540.not_le, h500.not_le, h460.not_le, h420.not_le, h380.not_le, h340, h0]
  norm_num [mapTier, tier_thresholds, specLargestThreshold, tierOfThreshold, tierLookup,
    h800.not_le, h740.not_le, h700.not_le, h660.not_le, h620.not_le, h580.not_le, h540.not_le, h500.not_le, h460.not_le, h420.not_le, h380.not_le, h340.not_le, h0]


/-! ## The end-to-end scoring scenario (claim C4) -/

/-- The single asset of the end-to-end scenario: value 100000, full ownership. -/
def scenarioAsset : Asset :=
  { assetID := "asset-1", assetType := "savings", value := 100000,
    ownershipPercentage := 100, lastUpdated := "2024-01-01T00:00:00Z", metadata := none }

/-- The single liability of the scenario: amount 20000, monthly payment 500. -/
def scenarioLiability : Liability :=
  { liabilityID := "liab-1", liabilityType := "credit_card", amount := 20000,
    interestRate := 10, monthlyPayment := 500,
    lastUpdated := "2024-01-01T00:00:00Z", metadata := none }

/-- The scenario record: one asset, one liability, a well-formed owner address. -/
def scenarioRecord : FinancialData :=
  { userDID := "0xaaaaaaaaaaaaaaaaaaaaaaaaaaaaaaaaaaaaaaaa",
    assets := [scenarioAsset], liabilities := [scenarioLiability],
    lastUpdated := "2024-01-01T00:00:00Z", metadata := none }

/-- C4 counterexample: on the stated scenario input the code computes risk
score 238 (net worth 80000 contributes clamp(80000/10000, -200, 300) = 8, not
300) and credit tier "None", refuting the claimed riskScore 530 and tier
MidSilver. -/
theorem c4_scenario_counterexample :
    (compute_summary scenarioRecord (some 60000) (some 25000)).risk_score = 238
    ∧ (compute_summary scenarioRecord (some 60000) (some 25000)).credit_tier = "None"
    ∧ ¬((compute_summary scenarioRecord (some 60000) (some 25000)).risk_score = 530
        ∧ (compute_summary scenarioRecord (some 60000) (some 25000)).credit_tier = "MidSilver") := by
  norm_num [compute_summary, scenarioRecord, scenarioAsset, scenarioLiability,
    riskScore, mapTier, tier_thresholds, mapIncomeBand, income_bands]

/-- C4 amended: for the scenario input (one asset value 100000 at 100 percent,
one liability amount 20000 with monthly payment 500, annualIncome 60000, total
credit limit 25000) compute_summary returns netWorth 80000, dti 0.1,
utilization 0.8, riskScore 500 + 8 - 20 - 250 = 238, creditTier "None" and
incomeBand "upto75k". -/
theorem c4_scenario_amended :
    (compute_summary scenarioRecord (some 60000) (some 25000)).net_worth = 80000
    ∧ (compute_summary scenarioRecord (some 60000) (some 25000)).dti = some (1/10)
    ∧ (compute_summary scenarioRecord (some 60000) (some 25000)).utilization = some (4/5)
    ∧ (compute_summary scenarioRecord (some 60000) (some 25000)).risk_score = 238
    ∧ (compute_summary scenarioRecord (some 60000) (some 25000)).credit_tier = "None"
    ∧ (compute_summary scenarioRecord (some 60000) (some 25000)).income_band = "upto75k" := by
  norm_num [compute_summary, scenarioRecord, scenarioAsset, scenarioLiability,
    riskScore, mapTier, tier_thresholds, mapIncomeBand, income_bands, mapIncomeBand.go]

/-- C5: for every record and every optional annualIncome / totalCreditLimit
context, the risk score computed by compute_summary equals
clamp(500 + clamp(netWorth/10000, -200, 300) - clamp(dti*200, 0, 250)
- clamp(utilization*400, 0, 250), 0, 1000), where an absent dti or utilization
contributes 0; and dti (resp. utilization) is absent exactly when the income
(resp. credit limit) is missing or not positive. -/
theorem c5_risk_score_formula (fd : FinancialData)
    (annual_income total_credit_limit : Option ℚ) :
    (compute_summary fd annual_income total_credit_limit).risk_score
      = specRiskScore (compute_summary fd annual_income total_credit_limit).net_worth
          (compute_summary fd annual_income total_credit_limit).dti
          (compute_summary fd annual_income total_credit_limit).utilization
    ∧ ((compute_summary fd annual_income total_credit_limit).dti = none
        ↔ ∀ i, annual_income = some i → i ≤ 0)
    ∧ ((compute_summary fd annual_income total_credit_limit).utilization = none
        ↔ ∀ l, total_credit_limit = some l → l ≤ 0) := by
  refine ⟨riskScore_eq_spec _ _ _, ?_, ?_⟩
  · cases annual_income with
    | none => simp [compute_summary]
    | some i =>
      simp only [compute_summary]
      split_ifs with h
      · simp only [Option.some.injEq, reduceCtorEq, false_iff, not_forall]
        exact ⟨i, rfl, not_le.mpr h.2⟩
      · simp only [eq_self_iff_true, true_iff]
        intro j hj
        cases hj
        by_contra hpos
        push_neg at hpos
        exact h ⟨ne_of_gt hpos, hpos⟩
  · cases total_credit_limit with
    | none => simp [compute_summary]
    | some l =>
      simp only [compute_summary]
      split_ifs with h
      · simp only [Option.some.injEq, reduceCtorEq, false_iff, not_forall]
        exact ⟨l, rfl, not_le.mpr h.2⟩
      · simp only [eq_self_iff_true, true_iff]
        intro j hj
        cases hj
        by_contra hpos
        push_neg at hpos
        exact h ⟨ne_of_gt hpos, hpos⟩

/-- C6: for every risk score in the range 0 to 1000 the assigned credit tier
is the tier of the largest threshold of the 13-entry table that the score
reaches, with an inclusive boundary; in particular 700 maps to LowPlatinum and
699 maps to HighGold. -/
theorem c6_tier_inclusive_boundary (s : ℚ) (h0 : 0 ≤ s) (_h1 : s ≤ 1000) :
    mapTier tier_thresholds s = tierOfThreshold (specLargestThreshold s)
    ∧ mapTier tier_thresholds 700 = "LowPlatinum"
    ∧ mapTier tier_thresholds 699 = "HighGold" :=
  ⟨mapTier_eq_largest s h0,
   by norm_num [mapTier, tier_thresholds],
   by norm_num [mapTier, tier_thresholds]⟩

/-- Witness for C6 at the boundary score 700. -/
theorem c6_tier_inclusive_boundary_witness :
    (0:ℚ) ≤ 700 ∧ (700:ℚ) ≤ 1000
    ∧ (mapTier tier_thresholds 700 = tierOfThreshold (specLargestThreshold 700)
       ∧ mapTier tier_thresholds 700 = "LowPlatinum"
       ∧ mapTier tier_thresholds 699 = "HighGold") :=
  ⟨by norm_num, by norm_num,
   c6_tier_inclusive_boundary 700 (by norm_num) (by norm_num)⟩


/-! ## data_storage/storage.py -/

/-- External dependencies of FinancialDataStorage, passed in explicitly:
json.dumps and json.loads, hashlib.sha256 (a digest over the serialized
bytes), the Fernet cipher of the configured key, and the current time used by
the dataclass default factories.  The Bytes type stands for the Python str or
bytes payloads, which the storage code treats opaquely. -/
structure StorageEnv (Bytes : Type) where
  dumps : JVal → Bytes
  loads : Bytes → Except PyErr JVal
  sha256 : Bytes → List ℕ
  encrypt : Bytes → Bytes
  decrypt : Bytes → Except PyErr Bytes
  now : String

/-- The data directory: files keyed by name. -/
def Store (Bytes : Type) : Type := List (String × Bytes)

/-- Reads a file from the data directory, none when it does not exist. -/
def readFile {Bytes : Type} (path : String) : Store Bytes → Option Bytes
  | [] => none
  | (p, c) :: rest => if p = path then some c else readFile path rest

/-- Writes (creates or overwrites) a file in the data directory. -/
def writeFile {Bytes : Type} (path : String) (content : Bytes) :
    Store Bytes → Store Bytes
  | [] => [(path, content)]
  | (p, c) :: rest =>
    if p = path then (path, content) :: rest else (p, c) :: writeFile path content rest

theorem readFile_writeFile_self {Bytes : Type} (path : String) (content : Bytes) :
    ∀ st : Store Bytes, readFile path (writeFile path content st) = some content := by
  intro st
  induction st with
  | nil => simp [readFile, writeFile]
  | cons hd tl ih =>
    by_cases h : hd.1 = path <;> simp [readFile, writeFile, h, ih]

/-- FinancialDataStorage._get_file_path: the 0x prefix is stripped and the
json extension appended. -/
def filePathOf (user_did : String) : String :=
  (if startsWith0x user_did then user_did.drop 2 else user_did) ++ ".json"

/-- FinancialDataStorage.save: serializes the record, hashes the plaintext
serialization, writes the (optionally encrypted) bytes, returns the digest. -/
def FinancialDataStorage.save {Bytes : Type} (E : StorageEnv Bytes)
    (encrypted : Bool) (st : Store Bytes) (financial_data : FinancialData) :
    Except PyErr (List ℕ × Store Bytes) := do
  let file_path := filePathOf financial_data.userDID
  let dict ← financial_data.to_dict
  let json_data := E.dumps dict
  let json_bytes := if encrypted then E.encrypt json_data else json_data
  let st2 := writeFile file_path json_bytes st
  .ok (E.sha256 json_data, st2)

/-- FinancialDataStorage.load. -/
def FinancialDataStorage.load {Bytes : Type} (E : StorageEnv Bytes)
    (encrypted : Bool) (st : Store Bytes) (user_did : String) :
    Except PyErr (Option FinancialData) :=
  match readFile (filePathOf user_did) st with
  | none => .ok none
  | some json_bytes => do
    let jb ← if encrypted then E.decrypt json_bytes else .ok json_bytes
    let v ← E.loads jb
    let fd ← FinancialData.from_dict E.now v
    .ok (some fd)

/-- FinancialDataStorage.calculate_file_hash: digest of the stored bytes
after decryption when encryption at rest is configured. -/
def calculate_file_hash {Bytes : Type} (E : StorageEnv Bytes)
    (encrypted : Bool) (st : Store Bytes) (user_did : String) :
    Except PyErr (Option (List ℕ)) :=
  match readFile (filePathOf user_did) st with
  | none => .ok none
  | some json_bytes => do
    let jb ← if encrypted then E.decrypt json_bytes else .ok json_bytes
    .ok (some (E.sha256 jb))

/-- The upsert of add_asset: replace the first asset with the same ID, else
append at the end. -/
def upsertAsset (asset : Asset) : List Asset → List Asset
  | [] => [asset]
  | a :: rest =>
    if a.assetID = asset.assetID then asset :: rest else a :: upsertAsset asset rest

/-- The upsert of add_liability. -/
def upsertLiability (liability : Liability) : List Liability → List Liability
  | [] => [liability]
  | l :: rest =>
    if l.liabilityID = liability.liabilityID then liability :: rest
    else l :: upsertLiability liability rest

/-- FinancialDataStorage.add_asset: load (or create a fresh record when the
owner has none), upsert, save. -/
def add_asset {Bytes : Type} (E : StorageEnv Bytes) (encrypted : Bool)
    (st : Store Bytes) (user_did : String) (asset : Asset) :
    Except PyErr (List ℕ × Store Bytes) := do
  let fd0 ← FinancialDataStorage.load E encrypted st user_did
  let financial_data ← match fd0 with
    | none => FinancialData.mkChecked user_did [] [] E.now none
    | some fd => .ok fd
  let fd2 := { financial_data with assets := upsertAsset asset financial_data.assets }
  FinancialDataStorage.save E encrypted st fd2

/-- FinancialDataStorage.remove_asset: none (no save, store unchanged) when
the owner has no record. -/
def remove_asset {Bytes : Type} (E : StorageEnv Bytes) (encrypted : Bool)
    (st : Store Bytes) (user_did asset_id : String) :
    Except PyErr (Option (List ℕ) × Store Bytes) := do
  let fd0 ← FinancialDataStorage.load E encrypted st user_did
  match fd0 with
  | none => .ok (none, st)
  | some fd => do
    let fd2 := { fd with assets := fd.assets.filter (fun a => a.assetID != asset_id) }
    let (h, st2) ← FinancialDataStorage.save E encrypted st fd2
    .ok (some h, st2)

/-- FinancialDataStorage.add_liability. -/
def add_liability {Bytes : Type} (E : StorageEnv Bytes) (encrypted : Bool)
    (st : Store Bytes) (user_did : String) (liability : Liability) :
    Except PyErr (List ℕ × Store Bytes) := do
  let fd0 ← FinancialDataStorage.load E encrypted st user_did
  let financial_data ← match fd0 with
    | none => FinancialData.mkChecked user_did [] [] E.now none
    | some fd => .ok fd
  let fd2 := { financial_data with
               liabilities := upsertLiability liability financial_data.liabilities }
  FinancialDataStorage.save E encrypted st fd2

/-- FinancialDataStorage.remove_liability. -/
def remove_liability {Bytes : Type} (E : StorageEnv Bytes) (encrypted : Bool)
    (st : Store Bytes) (user_did liability_id : String) :
    Except PyErr (Option (List ℕ) × Store Bytes) := do
  let fd0 ← FinancialDataStorage.load E encrypted st user_did
  match fd0 with
  | none => .ok (none, st)
  | some fd => do
    let fd2 := { fd with
                 liabilities := fd.liabilities.filter (fun l => l.liabilityID != liability_id) }
    let (h, st2) ← FinancialDataStorage.save E encrypted st fd2
    .ok (some h, st2)


/-- Bind of a successful Except computation. -/
@[simp] theorem bindE_ok {α β : Type} (a : α) (f : α → Except PyErr β) :
    (Except.ok a : Except PyErr α) >>= f = f a := rfl

/-- Bind of a failed Except computation. -/
@[simp] theorem bindE_error {α β : Type} (e : PyErr) (f : α → Except PyErr β) :
    (Except.error e : Except PyErr α) >>= f = Except.error e := rfl

/-! ## A concrete instantiation of the storage dependencies

Used to run the storage pipeline on concrete inputs: serialized byte strings
are represented by the JSON values themselves, serialization is the identity,
the digest is a fixed 32-byte value, and encryption is the identity cipher. -/

/-- Concrete storage environment for evaluating claims on explicit inputs. -/
def testEnv : StorageEnv JVal :=
  { dumps := fun v => v
    loads := fun v => .ok v
    sha256 := fun _ => List.replicate 32 0
    encrypt := fun v => v
    decrypt := fun v => .ok v
    now := "2024-01-01T00:00:00Z" }

/-- A well-formed owner address. -/
def ownerA : String := "0xaaaaaaaaaaaaaaaaaaaaaaaaaaaaaaaaaaaaaaaa"

/-- The file name the storage derives from ownerA. -/
def pathA : String := "aaaaaaaaaaaaaaaaaaaaaaaaaaaaaaaaaaaaaaaa.json"

/-- The scenario record with its liabilities list emptied (a record the
serializer can actually process). -/
def plainRecord : FinancialData := { scenarioRecord with liabilities := [] }

/-- Serialized form of scenarioAsset. -/
def scenarioAssetDict : JVal :=
  .obj [("assetID", .s "asset-1"), ("assetType", .s "savings"),
        ("value", .q 100000), ("ownershipPercentage", .q 100),
        ("lastUpdated", .s "2024-01-01T00:00:00Z")]

/-- Serialized form of plainRecord. -/
def plainRecordDict : JVal :=
  .obj [("userDID", .s ownerA),
        ("assets", .arr [scenarioAssetDict]),
        ("liabilities", .arr []),
        ("lastUpdated", .s "2024-01-01T00:00:00Z")]

/-- C1: the save/load round trip is claimed to succeed for every valid record,
in particular for records with a non-empty liabilities list.  In the code the
Liability dataclass declares neither dueDate nor isOverdue, yet
Liability.to_dict reads both attributes, so to_dict raises AttributeError and
save crashes on any record holding at least one liability: the round trip
fails at the very first step.  With an empty liabilities list (third and
fourth conjuncts) save succeeds and load returns the record unchanged. -/
theorem c1_round_trip_crashes_on_liabilities :
    Liability.to_dict scenarioLiability = .error (.attributeError "dueDate")
    ∧ FinancialDataStorage.save testEnv false [] scenarioRecord
        = .error (.attributeError "dueDate")
    ∧ FinancialDataStorage.save testEnv false [] plainRecord
        = .ok (List.replicate 32 0, [(pathA, plainRecordDict)])
    ∧ FinancialDataStorage.load testEnv false [(pathA, plainRecordDict)] ownerA
        = .ok (some plainRecord) :=
  ⟨rfl, rfl, rfl, rfl⟩

/-- C2: whenever save succeeds, the digest it returns is the digest of the
plaintext canonical serialization of the record (for both settings of the
encryption-at-rest flag and independent of the prior store), and
calculate_file_hash recomputed on the resulting store returns that same
digest.  The Fernet cipher is assumed to invert (decrypt after encrypt is the
identity), which is its contract. -/
theorem c2_digest_plaintext (Bytes : Type) (E : StorageEnv Bytes)
    (hdec : ∀ b, E.decrypt (E.encrypt b) = .ok b)
    (encrypted : Bool) (st : Store Bytes) (fd : FinancialData)
    (d : List ℕ) (st2 : Store Bytes)
    (hsave : FinancialDataStorage.save E encrypted st fd = .ok (d, st2)) :
    (∃ v, fd.to_dict = .ok v ∧ d = E.sha256 (E.dumps v))
    ∧ calculate_file_hash E encrypted st2 fd.userDID = .ok (some d)
    ∧ (∀ (encrypted2 : Bool) (st0 : Store Bytes), ∃ st3,
        FinancialDataStorage.save E encrypted2 st0 fd = .ok (d, st3)) := by
  cases hv : fd.to_dict with
  | error e =>
    rw [FinancialDataStorage.save] at hsave
    rw [hv] at hsave
    simp at hsave
  | ok v =>
    rw [FinancialDataStorage.save] at hsave
    rw [hv] at hsave
    simp only [bindE_ok, Except.ok.injEq, Prod.mk.injEq] at hsave
    obtain ⟨hd, hst⟩ := hsave
    refine ⟨⟨v, rfl, hd.symm⟩, ?_, ?_⟩
    · rw [calculate_file_hash, ← hst]
      rw [readFile_writeFile_self]
      cases encrypted with
      | false => simp [hd]
      | true => simp [hdec, hd]
    · intro encrypted2 st0
      refine ⟨writeFile (filePathOf fd.userDID)
        (if encrypted2 then E.encrypt (E.dumps v) else E.dumps v) st0, ?_⟩
      rw [FinancialDataStorage.save, hv]
      simp only [bindE_ok, Except.ok.injEq, Prod.mk.injEq]
      simp [hd]

/-- Witness for C2 on a concrete record and environment. -/
theorem c2_digest_plaintext_witness :
    (∀ b : JVal, testEnv.decrypt (testEnv.encrypt b) = Except.ok b)
    ∧ FinancialDataStorage.save testEnv false [] plainRecord
        = .ok (List.replicate 32 0, [(pathA, plainRecordDict)])
    ∧ ((∃ v, plainRecord.to_dict = .ok v
          ∧ List.replicate 32 0 = testEnv.sha256 (testEnv.dumps v))
       ∧ calculate_file_hash testEnv false [(pathA, plainRecordDict)] plainRecord.userDID
           = .ok (some (List.replicate 32 0))
       ∧ (∀ (encrypted2 : Bool) (st0 : Store JVal), ∃ st3,
            FinancialDataStorage.save testEnv encrypted2 st0 plainRecord
              = .ok (List.replicate 32 0, st3))) :=
  ⟨fun _ => rfl, rfl,
   c2_digest_plaintext JVal testEnv (fun _ => rfl) false [] plainRecord
     (List.replicate 32 0) [(pathA, plainRecordDict)] rfl⟩

/-- C10: on an owner with no stored record, add_asset creates a fresh record
holding exactly the added asset and returns the new digest (first and second
conjuncts), and remove_asset / remove_liability return none and leave the
store empty (fourth and fifth conjuncts) — as the claim states.  But
add_liability, claimed to create a fresh single-entry record likewise,
instead crashes: the fresh record is created, yet saving it runs
Liability.to_dict, which raises AttributeError because the Liability
dataclass lacks the dueDate attribute (third conjunct). -/
theorem c10_missing_owner_add_remove :
    add_asset testEnv false [] ownerA scenarioAsset
        = .ok (List.replicate 32 0, [(pathA, plainRecordDict)])
    ∧ FinancialDataStorage.load testEnv false [(pathA, plainRecordDict)] ownerA
        = .ok (some { userDID := ownerA, assets := [scenarioAsset], liabilities := [],
                      lastUpdated := testEnv.now, metadata := none })
    ∧ add_liability testEnv false [] ownerA scenarioLiability
        = .error (.attributeError "dueDate")
    ∧ remove_asset testEnv false [] ownerA "asset-1" = .ok (none, [])
    ∧ remove_liability testEnv false [] ownerA "liab-1" = .ok (none, []) :=
  ⟨rfl, rfl, rfl, rfl, rfl⟩


/-! ## data_services/consent_data_service.py -/

/-- ConsentDataService._check_consent: issues the isConsentGranted read call
against the ledger (the whole contract interaction, checksum conversion
included, runs inside the try block, modelled as one fallible call) and
returns its boolean result; any exception is caught, logged and treated as
consent not granted. -/
def check_consent (call : String → String → Except PyErr Bool)
    (user_address requester_address : String) : Bool :=
  match call user_address requester_address with
  | .ok is_granted => is_granted
  | .error _ => false

/-- ConsentDataService.request_data_by_address: raises PermissionError when
the consent check is negative, otherwise returns storage.load of the owner
(the storage dependency is the injected load function, as in the source). -/
def request_data_by_address (call : String → String → Except PyErr Bool)
    (loadFn : String → Except PyErr (Option FinancialData))
    (user_address requester_address : String) :
    Except PyErr (Option FinancialData) :=
  if check_consent call user_address requester_address then loadFn user_address
  else .error (.permissionError "requester does not have consent")

/-- C7: for an owner with a stored record, the consent-gated fetch returns the
stored record when the ledger reports the consent granted, raises
PermissionError (and releases nothing) when the ledger reports it not
granted, and when the remote read fails with any error the check evaluates to
not granted (fail-closed, no crash of the check) and the fetch again raises
PermissionError. -/
theorem c7_consent_gating (call : String → String → Except PyErr Bool)
    (loadFn : String → Except PyErr (Option FinancialData))
    (owner requester : String) (r : FinancialData)
    (hstored : loadFn owner = .ok (some r)) :
    (call owner requester = .ok true →
      request_data_by_address call loadFn owner requester = .ok (some r))
    ∧ (call owner requester = .ok false →
      request_data_by_address call loadFn owner requester
        = .error (.permissionError "requester does not have consent"))
    ∧ (∀ e, call owner requester = .error e →
      check_consent call owner requester = false
      ∧ request_data_by_address call loadFn owner requester
          = .error (.permissionError "requester does not have consent")) := by
  refine ⟨?_, ?_, ?_⟩
  · intro h
    simp [request_data_by_address, check_consent, h, hstored]
  · intro h
    simp [request_data_by_address, check_consent, h]
  · intro e h
    constructor
    · simp [check_consent, h]
    · simp [request_data_by_address, check_consent, h]

/-- A ledger call that always grants, for the consent witness. -/
def grantedCall : String → String → Except PyErr Bool := fun _ _ => .ok true

/-- A storage load that returns the plain record, for the consent witness. -/
def storedLoad : String → Except PyErr (Option FinancialData) :=
  fun _ => .ok (some plainRecord)

/-- Witness for C7 on a concrete owner, requester, record and ledger. -/
theorem c7_consent_gating_witness :
    storedLoad ownerA = .ok (some plainRecord)
    ∧ ((grantedCall ownerA "0xbbbbbbbbbbbbbbbbbbbbbbbbbbbbbbbbbbbbbbbb" = .ok true →
          request_data_by_address grantedCall storedLoad ownerA
            "0xbbbbbbbbbbbbbbbbbbbbbbbbbbbbbbbbbbbbbbbb" = .ok (some plainRecord))
       ∧ (grantedCall ownerA "0xbbbbbbbbbbbbbbbbbbbbbbbbbbbbbbbbbbbbbbbb" = .ok false →
          request_data_by_address grantedCall storedLoad ownerA
            "0xbbbbbbbbbbbbbbbbbbbbbbbbbbbbbbbbbbbbbbbb"
            = .error (.permissionError "requester does not have consent"))
       ∧ (∀ e, grantedCall ownerA "0xbbbbbbbbbbbbbbbbbbbbbbbbbbbbbbbbbbbbbbbb"
              = .error e →
          check_consent grantedCall ownerA
              "0xbbbbbbbbbbbbbbbbbbbbbbbbbbbbbbbbbbbbbbbb" = false
          ∧ request_data_by_address grantedCall storedLoad ownerA
              "0xbbbbbbbbbbbbbbbbbbbbbbbbbbbbbbbbbbbbbbbb"
              = .error (.permissionError "requester does not have consent"))) :=
  ⟨rfl, c7_consent_gating grantedCall storedLoad ownerA
    "0xbbbbbbbbbbbbbbbbbbbbbbbbbbbbbbbbbbbbbbbb" plainRecord rfl⟩

/-! ## Python dictionaries keyed by strings (used by the OTP service and the
username directory) -/

/-- First-match lookup in an association list (Python dict read). -/
def dictLookup {α : Type} (k : String) : List (String × α) → Option α
  | [] => none
  | (k0, v) :: rest => if k0 = k then some v else dictLookup k rest

/-- Python dict assignment: replace the entry in place when the key exists,
else append at the end. -/
def dictInsert {α : Type} (k : String) (v : α) : List (String × α) → List (String × α)
  | [] => [(k, v)]
  | (k0, v0) :: rest =>
    if k0 = k then (k, v) :: rest else (k0, v0) :: dictInsert k v rest

/-- Python del: removes the entry with the key. -/
def dictErase {α : Type} (k : String) (d : List (String × α)) : List (String × α) :=
  d.filter (fun p => p.1 != k)

theorem dictLookup_insert_self {α : Type} (k : String) (v : α) :
    ∀ d : List (String × α), dictLookup k (dictInsert k v d) = some v := by
  intro d
  induction d with
  | nil => simp [dictLookup, dictInsert]
  | cons hd tl ih =>
    by_cases h : hd.1 = k <;> simp [dictLookup, dictInsert, h, ih]

theorem dictLookup_insert_ne {α : Type} (k0 k : String) (v : α) (h : k0 ≠ k) :
    ∀ d : List (String × α), dictLookup k0 (dictInsert k v d) = dictLookup k0 d := by
  intro d
  induction d with
  | nil => simp [dictLookup, dictInsert, Ne.symm h]
  | cons hd tl ih =>
    rcases hd with ⟨k1, v1⟩
    by_cases h2 : k1 = k
    · subst h2
      simp [dictLookup, dictInsert, Ne.symm h]
    · simp only [dictInsert, if_neg h2]
      by_cases h3 : k1 = k0
      · simp [dictLookup, h3]
      · simp [dictLookup, h3, ih]

theorem dictLookup_erase_self {α : Type} (k : String) (d : List (String × α)) :
    dictLookup k (dictErase k d) = none := by
  induction d with
  | nil => rfl
  | cons hd tl ih =>
    rcases hd with ⟨k1, v1⟩
    by_cases h : k1 = k
    · simpa [dictErase, List.filter_cons, h] using ih
    · simpa [dictErase, List.filter_cons, h, dictLookup] using ih

theorem dictLookup_erase_ne {α : Type} (k0 k : String) (h : k0 ≠ k)
    (d : List (String × α)) : dictLookup k0 (dictErase k d) = dictLookup k0 d := by
  induction d with
  | nil => rfl
  | cons hd tl ih =>
    rcases hd with ⟨k1, v1⟩
    by_cases h2 : k1 = k
    · subst h2
      simpa [dictErase, List.filter_cons, dictLookup, Ne.symm h] using ih
    · by_cases h3 : k1 = k0
      · simp [dictErase, List.filter_cons, h2, dictLookup, h3, h]
      · simpa [dictErase, List.filter_cons, h2, dictLookup, h3] using ih


/-! ## data_services/identity_verification.py -/

/-- The IdentityVerification service state: the OTP time-to-live, the
per-address one-time-code store (code and expiry timestamp), and the
per-address verification-proof store.  Timestamps are rationals (seconds);
time.time() is passed in as the now argument of each operation, the random
code generator as the otp argument, and hashlib.sha256(...).hexdigest() as an
explicit hash function. -/
structure IdentityVerification where
  otp_ttl : ℚ
  otp_store : List (String × (String × ℚ))
  verifications : List (String × List (String × String))
deriving DecidableEq

/-- IdentityVerification._normalize: lowercases the address and validates the
0x-prefixed 42-character format, raising ValueError otherwise. -/
def normalizeAddr (address : String) : Except PyErr String :=
  let addr := pyLower address
  if ¬(startsWith0x addr) ∨ addr.length ≠ 42 then .error (.valueError "Invalid address")
  else .ok addr

/-- IdentityVerification.generate_email_otp: stores the freshly generated
code (passed in, standing for the random choice) with expiry now + ttl,
overwriting any prior code of the address. -/
def generate_email_otp (otp : String) (now : ℚ) (st : IdentityVerification)
    (address : String) : Except PyErr (String × IdentityVerification) := do
  let addr ← normalizeAddr address
  .ok (otp, { st with otp_store := dictInsert addr (otp, now + st.otp_ttl) st.otp_store })

/-- IdentityVerification.verify_email_otp: false (state unchanged) when no
code is on file, the code is expired or the submitted code mismatches; on
success records the hash of the code under email_hash and deletes the code
entry. -/
def verify_email_otp (sha256hex : String → String) (now : ℚ)
    (st : IdentityVerification) (address otp : String) :
    Except PyErr (Bool × IdentityVerification) := do
  let addr ← normalizeAddr address
  match dictLookup addr st.otp_store with
  | none => .ok (false, st)
  | some (expected, expires_at) =>
    if now > expires_at ∨ otp ≠ expected then .ok (false, st)
    else
      let email_hash := sha256hex otp
      let vd := (dictLookup addr st.verifications).getD []
      let vd2 := dictInsert "email_hash" email_hash vd
      .ok (true, { st with otp_store := dictErase addr st.otp_store,
                           verifications := dictInsert addr vd2 st.verifications })

/-- C8: for every address accepted by the normalizer, verify returns false
and leaves both stores unchanged when no code is on file, when the code is
expired, or when the supplied code mismatches; on success it deletes the code
entry and records the code hash, so a second verify with the same code
returns false at any later time (single use); and issuing a new code
overwrites the prior one, so the old code no longer verifies (provided the
fresh random code differs from the old one). -/
theorem c8_otp_single_use (sha256hex : String → String) (now now2 : ℚ)
    (st : IdentityVerification) (address addr : String)
    (hnorm : normalizeAddr address = .ok addr) (code : String) :
    (dictLookup addr st.otp_store = none →
      verify_email_otp sha256hex now st address code = .ok (false, st))
    ∧ (∀ expected expires_at,
        dictLookup addr st.otp_store = some (expected, expires_at) →
        now > expires_at →
        verify_email_otp sha256hex now st address code = .ok (false, st))
    ∧ (∀ expected expires_at,
        dictLookup addr st.otp_store = some (expected, expires_at) →
        code ≠ expected →
        verify_email_otp sha256hex now st address code = .ok (false, st))
    ∧ (∀ expires_at,
        dictLookup addr st.otp_store = some (code, expires_at) →
        ¬(now > expires_at) →
        ∃ st2, verify_email_otp sha256hex now st address code = .ok (true, st2)
          ∧ dictLookup addr st2.otp_store = none
          ∧ (∃ vd, dictLookup addr st2.verifications = some vd
              ∧ dictLookup "email_hash" vd = some (sha256hex code))
          ∧ (∀ now3, verify_email_otp sha256hex now3 st2 address code = .ok (false, st2)))
    ∧ (∀ newcode, code ≠ newcode →
        ∀ st2, generate_email_otp newcode now st address = .ok (newcode, st2) →
        verify_email_otp sha256hex now2 st2 address code = .ok (false, st2)) := by
  refine ⟨?_, ?_, ?_, ?_, ?_⟩
  · intro h
    simp [verify_email_otp, hnorm, h]
  · intro expected expires_at h hexp
    simp [verify_email_otp, hnorm, h, hexp]
  · intro expected expires_at h hne
    simp [verify_email_otp, hnorm, h, hne]
  · intro expires_at h hfresh
    refine Exists.intro
      { st with
        otp_store := dictErase addr st.otp_store
        verifications := dictInsert addr
          (dictInsert "email_hash" (sha256hex code)
            ((dictLookup addr st.verifications).getD []))
          st.verifications }
      ⟨?_, ?_, ?_, ?_⟩
    · simp [verify_email_otp, hnorm, h, hfresh]
    · simpa using dictLookup_erase_self addr st.otp_store
    · refine Exists.intro
        (dictInsert "email_hash" (sha256hex code)
          ((dictLookup addr st.verifications).getD [])) ⟨?_, ?_⟩
      · simpa using dictLookup_insert_self addr _ st.verifications
      · simpa using dictLookup_insert_self "email_hash" _ _
    · intro now3
      have : dictLookup addr (dictErase addr st.otp_store) = none :=
        dictLookup_erase_self addr st.otp_store
      simp [verify_email_otp, hnorm, this]
  · intro newcode hne st2 hgen
    rw [generate_email_otp, hnorm] at hgen
    simp only [bindE_ok, Except.ok.injEq, Prod.mk.injEq] at hgen
    obtain ⟨-, hst2⟩ := hgen
    have hlook : dictLookup addr st2.otp_store = some (newcode, now + st.otp_ttl) := by
      rw [← hst2]
      simpa using dictLookup_insert_self addr _ st.otp_store
    simp [verify_email_otp, hnorm, hlook, hne]

/-- Witness for C8: a valid address with no code on file. -/
theorem c8_otp_single_use_witness :
    verify_email_otp (fun s => s) 0 ⟨600, [], []⟩ ownerA "123456"
      = .ok (false, ⟨600, [], []⟩) :=
  (c8_otp_single_use (fun s => s) 0 0 ⟨600, [], []⟩ ownerA ownerA rfl "123456").1 rfl

/-! ## data_storage/user_directory.py -/

/-- The UserDirectory state: the two maps persisted in user_directory.json. -/
structure UserDirectory where
  username_to_address : List (String × String)
  address_to_username : List (String × String)
deriving DecidableEq

/-- UserDirectory.get_address: lookup by lowercased username. -/
def get_address (d : UserDirectory) (username : String) : Option String :=
  dictLookup (pyLower username) d.username_to_address

/-- UserDirectory.get_username: lookup by lowercased address. -/
def get_username (d : UserDirectory) (user_address : String) : Option String :=
  dictLookup (pyLower user_address) d.address_to_username

/-- UserDirectory.register_username: false when the lowercased username is
taken (checked before address validation), ValueError on a malformed address,
else inserts into both maps.  The address is never checked against
address_to_username. -/
def register_username (d : UserDirectory) (username user_address : String) :
    Except PyErr (Bool × UserDirectory) :=
  let username_lower := pyLower username
  if (dictLookup username_lower d.username_to_address).isSome then .ok (false, d)
  else if ¬(startsWith0x user_address) ∨ user_address.length ≠ 42 then
    .error (.valueError "Invalid Ethereum address format")
  else
    .ok (true,
      { username_to_address := dictInsert username_lower user_address d.username_to_address
        address_to_username :=
          dictInsert (pyLower user_address) username_lower d.address_to_username })

/-- UserDirectory.update_username. -/
def update_username (d : UserDirectory) (old_username new_username : String) :
    Bool × UserDirectory :=
  let old_lower := pyLower old_username
  let new_lower := pyLower new_username
  match dictLookup old_lower d.username_to_address with
  | none => (false, d)
  | some address =>
    if (dictLookup new_lower d.username_to_address).isSome ∧ new_lower ≠ old_lower then
      (false, d)
    else
      (true,
        { username_to_address :=
            dictInsert new_lower address (dictErase old_lower d.username_to_address)
          address_to_username :=
            dictInsert (pyLower address) new_lower d.address_to_username })

/-- UserDirectory.unregister_username. -/
def unregister_username (d : UserDirectory) (username : String) :
    Bool × UserDirectory :=
  let username_lower := pyLower username
  match dictLookup username_lower d.username_to_address with
  | none => (false, d)
  | some address =>
    (true, { username_to_address := dictErase username_lower d.username_to_address
             address_to_username := dictErase (pyLower address) d.address_to_username })

/-- The three mutating directory operations. -/
inductive DirOp where
  | reg (username user_address : String)
  | upd (old_username new_username : String)
  | unreg (username : String)

/-- State after one operation (failed operations leave the state as it was,
whether they return false or raise). -/
def applyOp (d : UserDirectory) : DirOp → UserDirectory
  | .reg u a =>
    match register_username d u a with
    | .ok (_, d2) => d2
    | .error _ => d
  | .upd o n => (update_username d o n).2
  | .unreg u => (unregister_username d u).2

/-- State after a sequence of operations. -/
def applyOps (d : UserDirectory) : List DirOp → UserDirectory
  | [] => d
  | op :: rest => applyOps (applyOp d op) rest

/-- The guard of the amended claim: register is only invoked for an address
that is not already bound. -/
def GuardedOp (d : UserDirectory) : DirOp → Prop
  | .reg _ a => get_username d a = none
  | .upd _ _ => True
  | .unreg _ => True

/-- Every operation of the sequence is guarded in the state it runs in. -/
def GuardedSeq : UserDirectory → List DirOp → Prop
  | _, [] => True
  | d, op :: rest => GuardedOp d op ∧ GuardedSeq (applyOp d op) rest

/-- The claimed invariant: the two maps are mutual inverses up to case
(username keys are stored lowercased; address keys are lowercased on entry,
values of username_to_address keep their original case). -/
def MutualInverse (d : UserDirectory) : Prop :=
  (∀ u a, dictLookup u d.username_to_address = some a →
    dictLookup (pyLower a) d.address_to_username = some u)
  ∧ (∀ al ul, dictLookup al d.address_to_username = some ul →
    ∃ a, dictLookup ul d.username_to_address = some a ∧ pyLower a = al)

/-- One guarded operation preserves the mutual-inverse invariant. -/
theorem applyOp_preserves_inverse (d : UserDirectory) (op : DirOp)
    (hinv : MutualInverse d) (hg : GuardedOp d op) :
    MutualInverse (applyOp d op) := by
  obtain ⟨hfwd, hbwd⟩ := hinv
  cases op with
  | reg u a =>
    simp only [GuardedOp, get_username] at hg
    simp only [applyOp, register_username]
    by_cases htaken : (dictLookup (pyLower u) d.username_to_address).isSome
    · simp only [if_pos htaken]
      exact ⟨hfwd, hbwd⟩
    · simp only [if_neg htaken]
      by_cases hvalid : ¬(startsWith0x a) ∨ a.length ≠ 42
      · simp only [if_pos hvalid]
        exact ⟨hfwd, hbwd⟩
      · simp only [if_neg hvalid]
        rw [Option.isSome_iff_exists] at htaken
        push_neg at htaken
        have hfresh : dictLookup (pyLower u) d.username_to_address = none := by
          cases hcase : dictLookup (pyLower u) d.username_to_address with
          | none => rfl
          | some x => exact absurd hcase (htaken x)
        constructor
        · intro u0 a0 hl
          by_cases hu : u0 = pyLower u
          · subst hu
            rw [dictLookup_insert_self] at hl
            cases hl
            rw [dictLookup_insert_self]
          · rw [dictLookup_insert_ne _ _ _ hu] at hl
            have := hfwd u0 a0 hl
            by_cases ha : pyLower a0 = pyLower a
            · rw [ha] at this
              rw [hg] at this
              cases this
            · rw [dictLookup_insert_ne _ _ _ ha]
              exact this
        · intro al0 ul0 hl
          by_cases ha : al0 = pyLower a
          · subst ha
            rw [dictLookup_insert_self] at hl
            cases hl
            exact ⟨a, dictLookup_insert_self _ _ _, rfl⟩
          · rw [dictLookup_insert_ne _ _ _ ha] at hl
            obtain ⟨a2, hl2, hla⟩ := hbwd al0 ul0 hl
            by_cases hu : ul0 = pyLower u
            · subst hu
              rw [hfresh] at hl2
              cases hl2
            · exact ⟨a2, by rw [dictLookup_insert_ne _ _ _ hu]; exact hl2, hla⟩
  | upd o n =>
    simp only [applyOp, update_username]
    cases hold : dictLookup (pyLower o) d.username_to_address with
    | none => exact ⟨hfwd, hbwd⟩
    | some address =>
      simp only
      by_cases hnew : (dictLookup (pyLower n) d.username_to_address).isSome
          ∧ pyLower n ≠ pyLower o
      · simp only [if_pos hnew]
        exact ⟨hfwd, hbwd⟩
      · simp only [if_neg hnew]
        constructor
        · intro u0 a0 hl
          by_cases hu : u0 = pyLower n
          · subst hu
            rw [dictLookup_insert_self] at hl
            cases hl
            rw [dictLookup_insert_self]
          · rw [dictLookup_insert_ne _ _ _ hu] at hl
            by_cases ho : u0 = pyLower o
            · subst ho
              rw [dictLookup_erase_self] at hl
              cases hl
            · rw [dictLookup_erase_ne _ _ ho] at hl
              have h1 := hfwd u0 a0 hl
              by_cases ha : pyLower a0 = pyLower address
              · exfalso
                have h2 := hfwd (pyLower o) address hold
                rw [ha] at h1
                rw [h1] at h2
                cases h2
                exact ho rfl
              · rw [dictLookup_insert_ne _ _ _ ha]
                exact h1
        · intro al0 ul0 hl
          by_cases ha : al0 = pyLower address
          · subst ha
            rw [dictLookup_insert_self] at hl
            cases hl
            exact ⟨address, by rw [dictLookup_insert_self], rfl⟩
          · rw [dictLookup_insert_ne _ _ _ ha] at hl
            obtain ⟨a2, hl2, hla⟩ := hbwd al0 ul0 hl
            by_cases hu : ul0 = pyLower n
            · exfalso
              subst hu
              rcases Decidable.em (pyLower n = pyLower o) with heq | hne
              · rw [heq] at hl2
                rw [hold] at hl2
                cases hl2
                exact ha hla.symm
              · exact hnew ⟨by rw [hl2]; rfl, hne⟩
            · refine ⟨a2, ?_, hla⟩
              rw [dictLookup_insert_ne _ _ _ hu]
              by_cases ho : ul0 = pyLower o
              · exfalso
                subst ho
                rw [hold] at hl2
                cases hl2
                exact ha hla.symm
              · rw [dictLookup_erase_ne _ _ ho]
                exact hl2
  | unreg u =>
    simp only [applyOp, unregister_username]
    cases hold : dictLookup (pyLower u) d.username_to_address with
    | none => exact ⟨hfwd, hbwd⟩
    | some address =>
      simp only
      constructor
      · intro u0 a0 hl
        by_cases hu : u0 = pyLower u
        · subst hu
          rw [dictLookup_erase_self] at hl
          cases hl
        · rw [dictLookup_erase_ne _ _ hu] at hl
          have h1 := hfwd u0 a0 hl
          by_cases ha : pyLower a0 = pyLower address
          · exfalso
            have h2 := hfwd (pyLower u) address hold
            rw [ha] at h1
            rw [h1] at h2
            cases h2
            exact hu rfl
          · rw [dictLookup_erase_ne _ _ ha]
            exact h1
      · intro al0 ul0 hl
        by_cases ha : al0 = pyLower address
        · subst ha
          rw [dictLookup_erase_self] at hl
          cases hl
        · rw [dictLookup_erase_ne _ _ ha] at hl
          obtain ⟨a2, hl2, hla⟩ := hbwd al0 ul0 hl
          by_cases hu : ul0 = pyLower u
          · exfalso
            subst hu
            rw [hold] at hl2
            cases hl2
            exact ha hla.symm
          · refine ⟨a2, ?_, hla⟩
            rw [dictLookup_erase_ne _ _ hu]
            exact hl2

end IdBlock

namespace IdBlock

/-- The directory before any registration. -/
def emptyDirectory : UserDirectory := ⟨[], []⟩

/-- The empty directory satisfies the invariant. -/
theorem emptyDirectory_inverse : MutualInverse emptyDirectory := by
  constructor
  · intro u a h
    simp [dictLookup, emptyDirectory] at h
  · intro al ul h
    simp [dictLookup, emptyDirectory] at h

/-- The invariant holds after every guarded sequence. -/
theorem guardedSeq_inverse :
    ∀ (ops : List DirOp) (d : UserDirectory), MutualInverse d →
      GuardedSeq d ops → MutualInverse (applyOps d ops) := by
  intro ops
  induction ops with
  | nil => intro d hinv _; exact hinv
  | cons op rest ih =>
    intro d hinv hseq
    exact ih (applyOp d op) (applyOp_preserves_inverse d op hinv hseq.1) hseq.2

/-- C9 amended: after every sequence of operations in which register is never
invoked for an address that is already bound, the two maps are mutual
inverses case-insensitively; registering a username differing from an
existing one only in letter case (for any other address) fails and changes
nothing; and get_address resolves identically for queries differing only in
case.  (The unguarded claim is refuted by the counterexample: registering a
second username for an already-bound address succeeds and breaks the
invariant.) -/
theorem c9_directory_amended (ops : List DirOp) (hseq : GuardedSeq emptyDirectory ops) :
    MutualInverse (applyOps emptyDirectory ops)
    ∧ (∀ (d : UserDirectory) (u1 a1 u2 a2 : String),
        get_address d u1 = some a1 → pyLower u2 = pyLower u1 →
        register_username d u2 a2 = .ok (false, d))
    ∧ (∀ (d : UserDirectory) (u v : String), pyLower u = pyLower v →
        get_address d u = get_address d v) := by
  refine ⟨guardedSeq_inverse ops emptyDirectory emptyDirectory_inverse hseq, ?_, ?_⟩
  · intro d u1 a1 u2 a2 hga hlow
    rw [get_address] at hga
    rw [register_username]
    simp only [hlow, hga, Option.isSome_some, if_pos]
  · intro d u v h
    rw [get_address, get_address, h]

/-- Directory after registering alice for ownerA. -/
def dirAfterOne : UserDirectory := ⟨[("alice", ownerA)], [(ownerA, "alice")]⟩

/-- Directory after additionally registering bob for the same ownerA: two
usernames now map to one address and the reverse map kept only the second. -/
def dirAfterTwo : UserDirectory :=
  ⟨[("alice", ownerA), ("bob", ownerA)], [(ownerA, "bob")]⟩

/-- C9 counterexample: register never checks whether the address is already
bound, so a second username for the same address is accepted; afterwards
get_address still resolves the first username to the address while
get_username returns only the second, and the mutual-inverse invariant is
false. -/
theorem c9_directory_counterexample :
    register_username emptyDirectory "alice" ownerA = .ok (true, dirAfterOne)
    ∧ register_username dirAfterOne "bob" ownerA = .ok (true, dirAfterTwo)
    ∧ get_address dirAfterTwo "alice" = some ownerA
    ∧ get_username dirAfterTwo ownerA = some "bob"
    ∧ ¬ MutualInverse dirAfterTwo := by
  refine ⟨rfl, rfl, rfl, rfl, ?_⟩
  intro ⟨hfwd, _⟩
  have := hfwd "alice" ownerA (by rfl)
  have h2 : pyLower ownerA = ownerA := by rfl
  rw [h2] at this
  have h3 : dictLookup ownerA dirAfterTwo.address_to_username = some "bob" := by rfl
  rw [h3] at this
  simp at this



/-- Witness for C9 on the one-operation guarded sequence registering alice. -/
theorem c9_directory_amended_witness :
    GuardedSeq emptyDirectory [DirOp.reg "alice" ownerA]
    ∧ (MutualInverse (applyOps emptyDirectory [DirOp.reg "alice" ownerA])
       ∧ (∀ (d : UserDirectory) (u1 a1 u2 a2 : String),
           get_address d u1 = some a1 → pyLower u2 = pyLower u1 →
           register_username d u2 a2 = .ok (false, d))
       ∧ (∀ (d : UserDirectory) (u v : String), pyLower u = pyLower v →
           get_address d u = get_address d v)) :=
  ⟨⟨rfl, trivial⟩, c9_directory_amended [DirOp.reg "alice" ownerA] ⟨rfl, trivial⟩⟩


/-! ## data_services/data_sharing_client.py -/

/-- The CREDIT_TIERS label table of data_sharing_client.py. -/
def CREDIT_TIERS : List String :=
  ["None", "LowBronze", "MidBronze", "HighBronze", "LowSilver", "MidSilver",
   "HighSilver", "LowGold", "MidGold", "HighGold", "LowPlatinum", "MidPlatinum",
   "HighPlatinum"]

/-- The INCOME_BANDS label table of data_sharing_client.py. -/
def INCOME_BANDS : List String :=
  ["None", "upto25k", "upto50k", "upto75k", "upto100k", "upto150k", "upto200k",
   "upto250k", "upto300k", "upto350k", "upto400k", "upto450k", "upto500k",
   "moreThan500k"]

/-- Helper for list.index. -/
def pyIndexAux : List String → String → ℕ → Except PyErr ℕ
  | [], _, _ => .error (.valueError "is not in list")
  | y :: rest, x, i => if y = x then .ok i else pyIndexAux rest x (i + 1)

/-- Python list.index: position of the first occurrence, ValueError when the
element is absent. -/
def pyIndex (xs : List String) (x : String) : Except PyErr ℕ := pyIndexAux xs x 0

/-- The _ensure_bytes32 helper: ValueError unless the value is 32 bytes. -/
def ensure_bytes32 (value : List ℕ) : Except PyErr (List ℕ) :=
  if value.length = 32 then .ok value else .error (.valueError "Expected 32-byte value")

/-- DocumentValidatorService.update_on_chain_profile: looks the tier and band
labels up in the fixed tables (list.index raises on an unknown label) and
sends the updateProfile transaction; building, signing and sending the
transaction is the injected send_tx callable, as in the source. -/
def update_on_chain_profile {R : Type}
    (send_tx : ℕ → ℕ → String → Except PyErr R)
    (user_address : String) (summary : Summary) : Except PyErr R := do
  let credit_enum ← pyIndex CREDIT_TIERS summary.credit_tier
  let income_enum ← pyIndex INCOME_BANDS summary.income_band
  send_tx credit_enum income_enum user_address

/-- The dictionary returned by a successful save_financial_profile (keys
dataPointer, summary, updateDataPointerReceipt, updateProfileReceipt). -/
structure SaveProfileResult (R : Type) where
  dataPointer : List ℕ
  summary : Summary
  updateDataPointerReceipt : R
  updateProfileReceipt : Option R
deriving DecidableEq

/-- DataSharingClient.save_financial_profile: persist off-chain, anchor the
pointer on-chain, compute the summary, and push the validator classification
when a validator private key is supplied (Python truthiness: an empty key
counts as absent).  The store is threaded separately from the Except result
because the file write of step 1 persists even when a later step raises;
there is no try/except around any step, so every failure propagates. -/
def save_financial_profile {Bytes R : Type} (E : StorageEnv Bytes) (encrypted : Bool)
    (update_pointer : List ℕ → Except PyErr R)
    (push_profile : ℕ → ℕ → String → Except PyErr R)
    (st : Store Bytes) (financial_data : FinancialData)
    (validator_private_key : Option String)
    (annual_income total_credit_limit : Option ℚ) :
    Store Bytes × Except PyErr (SaveProfileResult R) :=
  match FinancialDataStorage.save E encrypted st financial_data with
  | .error e => (st, .error e)
  | .ok (data_hash, st2) =>
    match ensure_bytes32 data_hash with
    | .error e => (st2, .error e)
    | .ok data_pointer =>
      match update_pointer data_pointer with
      | .error e => (st2, .error e)
      | .ok pointer_receipt =>
        let summary := compute_summary financial_data annual_income total_credit_limit
        let has_validator := match validator_private_key with
          | none => false
          | some k => k != ""
        if has_validator then
          match update_on_chain_profile push_profile financial_data.userDID summary with
          | .error e => (st2, .error e)
          | .ok profile_receipt =>
            (st2, .ok ⟨data_pointer, summary, pointer_receipt, some profile_receipt⟩)
        else
          (st2, .ok ⟨data_pointer, summary, pointer_receipt, none⟩)

/-- A pointer-anchoring call that succeeds, for the C3 scenario. -/
def okPointer : List ℕ → Except PyErr String := fun _ => .ok "pointer-receipt"

/-- A profile push that fails, for the C3 scenario. -/
def failPush : ℕ → ℕ → String → Except PyErr String :=
  fun _ _ _ => .error (.externalError "updateProfile reverted")

/-- C3 counterexample: with a validator key supplied and a failing profile
push, save_financial_profile does not return the otherwise-successful result
with a profileError field (no such field exists in the source); the push
failure propagates as an exception.  The local record does stay persisted
(second conjunct). -/
theorem c3_profile_push_counterexample :
    save_financial_profile testEnv false okPointer failPush [] plainRecord
        (some "validator-key") none none
      = ([(pathA, plainRecordDict)], .error (.externalError "updateProfile reverted"))
    ∧ FinancialDataStorage.load testEnv false [(pathA, plainRecordDict)] ownerA
      = .ok (some plainRecord) := by
  have h1 : FinancialDataStorage.save testEnv false [] plainRecord
      = .ok (List.replicate 32 0, [(pathA, plainRecordDict)]) := rfl
  have h2 : compute_summary plainRecord none none
      = { net_worth := 100000, total_assets := 100000, total_liabilities := 0,
          dti := none, utilization := none, risk_score := 510,
          credit_tier := "MidSilver", income_band := "None" } := by
    norm_num [compute_summary, plainRecord, scenarioRecord, scenarioAsset,
      riskScore, mapTier, tier_thresholds, mapIncomeBand, income_bands]
  constructor
  · simp only [save_financial_profile, h1, ensure_bytes32, List.length_replicate,
      okPointer, h2]
    rfl
  · rfl

/-- C3 amended: when a validator key is supplied and steps 1 to 3 succeed but
the profile push fails, the failure is raised to the caller (the operation
returns that error and no success value exists), while steps 1 to 3 are not
rolled back: the returned store is the post-save store, and the same call
without a validator key returns the successful pointer, summary and pointer
receipt.  The source has no profileError field and no try/except around the
push. -/
theorem c3_profile_push_amended {Bytes R : Type} (E : StorageEnv Bytes)
    (encrypted : Bool) (update_pointer : List ℕ → Except PyErr R)
    (push_profile : ℕ → ℕ → String → Except PyErr R)
    (st st2 : Store Bytes) (fd : FinancialData) (d : List ℕ)
    (k : String) (hk : k ≠ "")
    (annual_income total_credit_limit : Option ℚ)
    (pr : R) (e : PyErr)
    (hsave : FinancialDataStorage.save E encrypted st fd = .ok (d, st2))
    (hlen : d.length = 32)
    (hptr : update_pointer d = .ok pr)
    (hpush : update_on_chain_profile push_profile fd.userDID
        (compute_summary fd annual_income total_credit_limit) = .error e) :
    save_financial_profile E encrypted update_pointer push_profile st fd (some k)
        annual_income total_credit_limit = (st2, .error e)
    ∧ (∀ res : SaveProfileResult R,
        save_financial_profile E encrypted update_pointer push_profile st fd (some k)
          annual_income total_credit_limit ≠ (st2, .ok res))
    ∧ save_financial_profile E encrypted update_pointer push_profile st fd none
        annual_income total_credit_limit
      = (st2, .ok ⟨d, compute_summary fd annual_income total_credit_limit, pr, none⟩) := by
  have hmain : save_financial_profile E encrypted update_pointer push_profile st fd
      (some k) annual_income total_credit_limit = (st2, .error e) := by
    rw [save_financial_profile, hsave]
    simp only [ensure_bytes32, hlen, if_pos, hptr]
    simp [hk, hpush]
  refine ⟨hmain, ?_, ?_⟩
  · intro res h
    rw [hmain] at h
    simp at h
  · rw [save_financial_profile, hsave]
    simp only [ensure_bytes32, hlen, if_pos, hptr]
    simp


/-- Witness for C3 at the concrete scenario of the counterexample. -/
theorem c3_profile_push_amended_witness :
    ("validator-key" : String) ≠ ""
    ∧ save_financial_profile testEnv false okPointer failPush [] plainRecord
        (some "validator-key") none none
      = ([(pathA, plainRecordDict)],
         .error (.externalError "updateProfile reverted")) := by
  have hpush : update_on_chain_profile failPush plainRecord.userDID
      (compute_summary plainRecord none none)
      = .error (.externalError "updateProfile reverted") := by
    have h2 : compute_summary plainRecord none none
        = { net_worth := 100000, total_assets := 100000, total_liabilities := 0,
            dti := none, utilization := none, risk_score := 510,
            credit_tier := "MidSilver", income_band := "None" } := by
      norm_num [compute_summary, plainRecord, scenarioRecord, scenarioAsset,
        riskScore, mapTier, tier_thresholds, mapIncomeBand, income_bands]
    rw [h2]
    rfl
  exact ⟨by decide,
    (c3_profile_push_amended testEnv false okPointer failPush []
      [(pathA, plainRecordDict)] plainRecord (List.replicate 32 0) "validator-key"
      (by decide) none none "pointer-receipt" (.externalError "updateProfile reverted")
      rfl (by simp) rfl hpush).1⟩

end IdBlock
